import Mathlib

/-!
Shallow embedding of the two Ansible Lightsail modules
(`lib/ansible/modules/cloud/amazon/lightsail_keypair.py` and
`lib/ansible/modules/cloud/amazon/lightsail_firewall.py`).

Modelling conventions:
* A flat API response document is an association list of string keys and
  string values (`RespDict`).
* The boto3 Lightsail client is abstracted as a record of endpoint
  functions (`Client`); each endpoint returns `Except String r`, where the
  `String` of the error case is the text of the raised `ClientError`.
* `module.fail_json` terminates the whole invocation, so every embedded
  function returns in an `Except Halt` monad; `Halt.failJson msg` is a
  `fail_json` call and `Halt.pyError` is an uncaught Python exception
  (`KeyError`, `TypeError` from unpacking `None`, `AttributeError` from
  translating `None`), which the `main` wrapper would convert into a
  generic failure whose text is interpreter-generated.
* Every embedded function also returns the list of remote API calls it
  issued, in order, so that claims about which endpoints were invoked and
  how often can be stated.
* The firewall source file contains unambiguous syntax slips (a bare
  `except as e:`, `module.params['from_port')`, `module.params['name]`,
  `type'str'`); the embedding reads them in the only plausible way, which
  is also the reading the specification adopts.
-/

/-- A flat API response document: string keys to string values. -/
abbrev RespDict := List (String × String)

/-- The response of the `create_key_pair` endpoint: the code projects its
`operation` field. -/
structure CreateKeyPairResp where
  operation : RespDict
  deriving DecidableEq, Repr

/-- One remote Lightsail API call, as issued by the code.  The instance
name argument of the two port operations is labelled `istanceName` because
the source passes it under that misspelled keyword. -/
inductive ApiCall where
  | getKeyPair (keyPairName : String)
  | importKeyPair (keyPairName publicKeyBase64 : String)
  | createKeyPair (keyPairName : String)
  | deleteKeyPair (keyPairName : String)
  | openInstancePublicPorts (fromPort toPort : Int) (protocol istanceName : String)
  | closeInstancePublicPorts (fromPort toPort : Int) (protocol istanceName : String)
  deriving DecidableEq, Repr

/-- How an embedded function can terminate the invocation early. -/
inductive Halt where
  /-- `module.fail_json(msg=...)`: terminal, user-facing failure. -/
  | failJson (msg : String)
  /-- An uncaught Python exception inside `core`. -/
  | pyError
  deriving DecidableEq, Repr

/-- The abstract boto3 Lightsail client: each endpoint maps its request to
either a response or the text of a raised `ClientError`.  `get_key_pair`
yields the value of the `keyPair` field of the response, `none` modelling a
mock store that answers with a null key pair for an absent name. -/
structure Client where
  get_key_pair : String → Except String (Option RespDict)
  import_key_pair : String → String → Except String RespDict
  create_key_pair : String → Except String CreateKeyPairResp
  delete_key_pair : String → Except String RespDict
  open_instance_public_ports : Int → Int → String → String → Except String RespDict
  close_instance_public_ports : Int → Int → String → String → Except String RespDict

/-- Modelled from the spec: `get_aws_connection_info` from
`ansible.module_utils.ec2` is not under `src/`; per the spec it yields the
configured region, and a missing region is fatal.  Python's `if not region`
treats both `None` and the empty string as missing. -/
def regionMissing : Option String → Bool
  | none => true
  | some s => s == ""

/-- One camelCase character mapped to its snake_case expansion: an upper
case letter becomes an underscore followed by its lower case form. -/
def camelToSnakeChar (c : Char) : List Char :=
  if c.isUpper then ['_', c.toLower] else [c]

/-- Modelled from the spec: `camel_dict_to_snake_dict` from
`ansible.module_utils.ec2` is not under `src/`; per the spec it renames
every camelCase key of the response document to snake_case
(e.g. `publicIpAddress` becomes `public_ip_address`), leaving values
untouched. -/
def camelToSnake (s : String) : String :=
  String.mk (s.data.map camelToSnakeChar).flatten

/-- Modelled from the spec: the dictionary-level key translation performed
on the response before it is returned (values are kept). -/
def camel_dict_to_snake_dict (d : RespDict) : RespDict :=
  d.map (fun kv => (camelToSnake kv.1, kv.2))

/-- `module.exit_json(changed=..., instance=camel_dict_to_snake_dict(...))`:
translating a present response succeeds; translating the placeholder `None`
raises (`AttributeError`), which surfaces as `Halt.pyError`. -/
def exit_json (changed : Bool) (d : Option RespDict) : Except Halt (Bool × RespDict) :=
  match d with
  | some dd => .ok (changed, camel_dict_to_snake_dict dd)
  | none => .error .pyError

/-- Parameters of the key-pair module that the embedded code reads. -/
structure KPParams where
  state : String
  key_pair_name : String
  public_key_base64 : String
  region : Option String
  deriving Repr

/-- `get_keypair` from `lightsail_keypair.py` (lines 254 to 271): asks the
`get_key_pair` endpoint for the requested name and returns
`(changed, resp)` with `changed` still `False`; a `ClientError` becomes a
`fail_json` embedding the error text. -/
def get_keypair (p : KPParams) (c : Client) :
    Except Halt (Bool × Option RespDict) × List ApiCall :=
  match c.get_key_pair p.key_pair_name with
  | .ok kp => (.ok (false, kp), [.getKeyPair p.key_pair_name])
  | .error e =>
      (.error (.failJson ("Unable to get keypair " ++ p.key_pair_name ++ ", error " ++ e)),
       [.getKeyPair p.key_pair_name])

/-- `import_keypair` from `lightsail_keypair.py` (lines 186 to 211).  It
first looks the name up via `get_keypair`.  If the lookup yields a key pair
whose `name` equals the requested name it fails; if the names differ the
function falls off the end of the `if` and returns Python `None` (the
`.ok none` case); if the lookup yields no key pair it calls the
`import_key_pair` endpoint.  A key pair document lacking the `name` key
would raise `KeyError` (`Halt.pyError`). -/
def import_keypair (p : KPParams) (c : Client) :
    Except Halt (Option (Bool × RespDict)) × List ApiCall :=
  match get_keypair p c with
  | (.error h, log) => (.error h, log)
  | (.ok (_ch, kpOpt), log) =>
    match kpOpt with
    | some kp =>
        match kp.lookup "name" with
        | none => (.error .pyError, log)
        | some n =>
            if n = p.key_pair_name then
              (.error (.failJson ("Keypair with name " ++ p.key_pair_name ++ " already exists")),
               log)
            else
              (.ok none, log)
    | none =>
        match c.import_key_pair p.key_pair_name p.public_key_base64 with
        | .ok resp =>
            (.ok (some (true, resp)), log ++ [.importKeyPair p.key_pair_name p.public_key_base64])
        | .error e =>
            (.error (.failJson ("Unable to import keypair " ++ p.key_pair_name ++ ", error " ++ e)),
             log ++ [.importKeyPair p.key_pair_name p.public_key_base64])

/-- `delete_key_pair` from `lightsail_keypair.py` (lines 233 to 252).  Note
that the source calls `client.create_key_pair(keyPairName=...)['operation']`,
not the deletion endpoint, although its error message reads
`Unable to delete keypair`. -/
def delete_key_pair (p : KPParams) (c : Client) :
    Except Halt (Bool × RespDict) × List ApiCall :=
  match c.create_key_pair p.key_pair_name with
  | .ok resp => (.ok (true, resp.operation), [.createKeyPair p.key_pair_name])
  | .error e =>
      (.error (.failJson ("Unable to delete keypair " ++ p.key_pair_name ++ ", error " ++ e)),
       [.createKeyPair p.key_pair_name])

/-- `core` from `lightsail_keypair.py` (lines 292 to 325): the region
check, then the `if/elif` dispatch on `state`, then the single
`exit_json(changed=..., instance=camel_dict_to_snake_dict(response_dict))`
line.  The `running`, `stopped` and `restarted` branches only execute
`print "foo"`, leaving `changed = False` and `response_dict = None`; a
`None` returned by `import_keypair` raises `TypeError` at the unpacking
(`Halt.pyError`). -/
def kp_core (p : KPParams) (c : Client) :
    Except Halt (Bool × RespDict) × List ApiCall :=
  if regionMissing p.region then
    (.error (.failJson "region must be specified"), [])
  else if p.state = "absent" then
    match delete_key_pair p c with
    | (.ok (ch, d), log) => (exit_json ch (some d), log)
    | (.error h, log) => (.error h, log)
  else if p.state = "running" ∨ p.state = "stopped" then
    (exit_json false none, [])
  else if p.state = "restarted" then
    (exit_json false none, [])
  else if p.state = "present" then
    match import_keypair p c with
    | (.ok (some (ch, d)), log) => (exit_json ch (some d), log)
    | (.ok none, log) => (.error .pyError, log)
    | (.error h, log) => (.error h, log)
  else
    (exit_json false none, [])

/-- The `choices` list of the `state` argument in `main` of
`lightsail_keypair.py` (lines 334 to 335). -/
def kp_choices : List String := ["present", "absent", "stopped", "running", "restarted"]

/-- Modelled from the spec: the `AnsibleModule` argument parser is not
under `src/`; per the spec it accepts exactly the declared `choices` for
`state` and rejects any other value before `core` runs.  `kp_main` is
`main` of `lightsail_keypair.py` up to that check. -/
def kp_main (p : KPParams) (c : Client) :
    Except Halt (Bool × RespDict) × List ApiCall :=
  if p.state ∈ kp_choices then kp_core p c
  else (.error (.failJson ("value of state must be one of: " ++
    "present, absent, stopped, running, restarted, got: " ++ p.state)), [])

/-- Parameters of the firewall module that the embedded code reads. -/
structure FWParams where
  name : String
  protocol : String
  state : String
  from_port : Int
  to_port : Int
  region : Option String
  deriving Repr

/-- `open_port` from `lightsail_firewall.py` (lines 57 to 73): one call to
the `open_instance_public_ports` endpoint with the `portInfo` fields
`fromPort`, `toPort`, `protocol` and the instance name (passed under the
misspelled keyword `istanceName`); success sets `changed = True`, any
error becomes a `fail_json` whose message embeds the error text. -/
def open_port (c : Client) (from_port to_port : Int) (protocol instance_name : String) :
    Except Halt (Bool × RespDict) × List ApiCall :=
  match c.open_instance_public_ports from_port to_port protocol instance_name with
  | .ok resp =>
      (.ok (true, resp), [.openInstancePublicPorts from_port to_port protocol instance_name])
  | .error e =>
      (.error (.failJson ("Error opening ports for instance " ++ instance_name ++
        ", error: " ++ e)),
       [.openInstancePublicPorts from_port to_port protocol instance_name])

/-- `close_port` from `lightsail_firewall.py` (lines 75 to 91): the
mirror image of `open_port` on the `close_instance_public_ports`
endpoint. -/
def close_port (c : Client) (from_port to_port : Int) (protocol instance_name : String) :
    Except Halt (Bool × RespDict) × List ApiCall :=
  match c.close_instance_public_ports from_port to_port protocol instance_name with
  | .ok resp =>
      (.ok (true, resp), [.closeInstancePublicPorts from_port to_port protocol instance_name])
  | .error e =>
      (.error (.failJson ("Error closing ports for instance " ++ instance_name ++
        ", error: " ++ e)),
       [.closeInstancePublicPorts from_port to_port protocol instance_name])

/-- `core` from `lightsail_firewall.py` (lines 93 to 119): the region
check, the dispatch (`absent` closes, `present` opens), then the single
`exit_json(changed=..., instance=camel_dict_to_snake_dict(key_pair_dict))`
line.  With any other state `key_pair_dict` is unbound and the exit line
raises `NameError` (`Halt.pyError`); the parser restricts `state` to
`present` and `absent`. -/
def fw_core (p : FWParams) (c : Client) :
    Except Halt (Bool × RespDict) × List ApiCall :=
  if regionMissing p.region then
    (.error (.failJson "region must be specified"), [])
  else if p.state = "absent" then
    match close_port c p.from_port p.to_port p.protocol p.name with
    | (.ok (ch, d), log) => (exit_json ch (some d), log)
    | (.error h, log) => (.error h, log)
  else if p.state = "present" then
    match open_port c p.from_port p.to_port p.protocol p.name with
    | (.ok (ch, d), log) => (exit_json ch (some d), log)
    | (.error h, log) => (.error h, log)
  else
    (.error .pyError, [])

/-! Concrete mock clients and parameter sets, used by the witnesses. -/

/-- A mock client whose store holds no key pair (`get_key_pair` answers
with a null key pair) and whose calls all succeed. -/
def emptyStoreClient : Client where
  get_key_pair := fun _ => .ok none
  import_key_pair := fun _ _ => .ok [("keyPairName", "k1"), ("fingerprint", "ab:cd")]
  create_key_pair := fun _ => .ok ⟨[("operationId", "op0")]⟩
  delete_key_pair := fun _ => .ok []
  open_instance_public_ports := fun _ _ _ _ => .ok [("operationId", "op1")]
  close_instance_public_ports := fun _ _ _ _ => .ok [("operationId", "op2")]

/-- A mock client whose store already holds a key pair named `k1`. -/
def storeK1Client : Client :=
  { emptyStoreClient with get_key_pair := fun _ => .ok (some [("name", "k1")]) }

/-- A mock client whose lookup answers with a key pair named `other`. -/
def storeOtherClient : Client :=
  { emptyStoreClient with get_key_pair := fun _ => .ok (some [("name", "other")]) }

/-- A mock client all of whose endpoints raise a `ClientError` with text
`boom`. -/
def boomClient : Client where
  get_key_pair := fun _ => .error "boom"
  import_key_pair := fun _ _ => .error "boom"
  create_key_pair := fun _ => .error "boom"
  delete_key_pair := fun _ => .error "boom"
  open_instance_public_ports := fun _ _ _ _ => .error "boom"
  close_instance_public_ports := fun _ _ _ _ => .error "boom"

/-- Key-pair module parameters with the given state, key pair `k1`,
public key `keydata` and a configured region. -/
def kpParams (st : String) : KPParams :=
  { state := st, key_pair_name := "k1", public_key_base64 := "keydata",
    region := some "us-east-1" }

/-- Firewall module parameters with the given state, instance `i1`,
protocol `tcp`, port range 80 to 80 and a configured region. -/
def fwParams (st : String) : FWParams :=
  { name := "i1", protocol := "tcp", state := st, from_port := 80, to_port := 80,
    region := some "us-east-1" }

/-! The claims. -/

/-- C1: the claim says `delete_key_pair` calls the remote key-pair
deletion endpoint with the requested name.  The code instead calls the
`create_key_pair` endpoint (projecting `operation` from its response),
contradicting its own error message `Unable to delete keypair`: with
`state = absent` and `key_pair_name = k1` the call log holds exactly one
`createKeyPair` call and no `deleteKeyPair` call, both on success and on a
`ClientError`, where the failure message does surface the error text. -/
theorem C1_delete_uses_create_endpoint :
    kp_core (kpParams "absent") emptyStoreClient =
      (.ok (true, [("operation_id", "op0")]), [ApiCall.createKeyPair "k1"]) ∧
    ApiCall.deleteKeyPair "k1" ∉ (kp_core (kpParams "absent") emptyStoreClient).2 ∧
    kp_core (kpParams "absent") boomClient =
      (.error (.failJson "Unable to delete keypair k1, error boom"),
       [ApiCall.createKeyPair "k1"]) := by
  refine ⟨rfl, ?_, rfl⟩
  decide

/-- C2: with `state = present`, when the preceding lookup finds a key pair
whose `name` equals the requested `key_pair_name`, `import_keypair` fails
with a message containing that name, and the call log holds only the
lookup — the import endpoint is never called. -/
theorem C2_import_existing_name_fails (p : KPParams) (c : Client) (kp : RespDict)
    (hst : p.state = "present") (hr : regionMissing p.region = false)
    (hg : c.get_key_pair p.key_pair_name = .ok (some kp))
    (hn : kp.lookup "name" = some p.key_pair_name) :
    kp_core p c =
      (.error (.failJson ("Keypair with name " ++ p.key_pair_name ++ " already exists")),
       [ApiCall.getKeyPair p.key_pair_name]) := by
  simp [kp_core, import_keypair, get_keypair, hst, hr, hg, hn]

/-- C2 witness: requesting `k1` against a store already holding `k1`. -/
theorem C2_witness :
    kp_core (kpParams "present") storeK1Client =
      (.error (.failJson "Keypair with name k1 already exists"),
       [ApiCall.getKeyPair "k1"]) :=
  C2_import_existing_name_fails (kpParams "present") storeK1Client [("name", "k1")]
    rfl rfl rfl rfl

/-- C3: with `state = present`, when the lookup finds no key pair under
the requested name, the import endpoint is called exactly once with the
given `key_pair_name` and `public_key_base64`, and the invocation exits
with `changed = true` and the snake_case translation of the response. -/
theorem C3_import_new_name (p : KPParams) (c : Client) (resp : RespDict)
    (hst : p.state = "present") (hr : regionMissing p.region = false)
    (hg : c.get_key_pair p.key_pair_name = .ok none)
    (hi : c.import_key_pair p.key_pair_name p.public_key_base64 = .ok resp) :
    kp_core p c =
      (.ok (true, camel_dict_to_snake_dict resp),
       [ApiCall.getKeyPair p.key_pair_name,
        ApiCall.importKeyPair p.key_pair_name p.public_key_base64]) := by
  simp [kp_core, import_keypair, get_keypair, exit_json, hst, hr, hg, hi]

/-- C3 witness: importing `k1` into an empty store. -/
theorem C3_witness :
    kp_core (kpParams "present") emptyStoreClient =
      (.ok (true, [("key_pair_name", "k1"), ("fingerprint", "ab:cd")]),
       [ApiCall.getKeyPair "k1", ApiCall.importKeyPair "k1" "keydata"]) :=
  C3_import_new_name (kpParams "present") emptyStoreClient
    [("keyPairName", "k1"), ("fingerprint", "ab:cd")] rfl rfl rfl rfl

/-- C4: with `state = present`, the open-port endpoint is invoked with
exactly the given `protocol`, `from_port` and `to_port` for the named
instance, and on success the invocation exits with `changed = true`. -/
theorem C4_open_port_present (p : FWParams) (c : Client) (resp : RespDict)
    (hst : p.state = "present") (hr : regionMissing p.region = false)
    (ho : c.open_instance_public_ports p.from_port p.to_port p.protocol p.name = .ok resp) :
    fw_core p c =
      (.ok (true, camel_dict_to_snake_dict resp),
       [ApiCall.openInstancePublicPorts p.from_port p.to_port p.protocol p.name]) := by
  simp [fw_core, open_port, exit_json, hst, hr, ho]

/-- C4 witness: `protocol = tcp`, `from_port = 80`, `to_port = 80` on
instance `i1`. -/
theorem C4_witness :
    fw_core (fwParams "present") emptyStoreClient =
      (.ok (true, [("operation_id", "op1")]),
       [ApiCall.openInstancePublicPorts 80 80 "tcp" "i1"]) :=
  C4_open_port_present (fwParams "present") emptyStoreClient [("operationId", "op1")]
    rfl rfl rfl

/-- C5: with `state = absent`, the call log is exactly one close-port call
carrying the given `protocol`, `from_port` and `to_port` (whether the
remote call succeeds or raises), so the open-port endpoint is never called
during the invocation. -/
theorem C5_close_port_absent (p : FWParams) (c : Client)
    (hst : p.state = "absent") (hr : regionMissing p.region = false) :
    (fw_core p c).2 =
      [ApiCall.closeInstancePublicPorts p.from_port p.to_port p.protocol p.name] ∧
    ∀ fp tp pr nm, ApiCall.openInstancePublicPorts fp tp pr nm ∉ (fw_core p c).2 := by
  have hlog : (fw_core p c).2 =
      [ApiCall.closeInstancePublicPorts p.from_port p.to_port p.protocol p.name] := by
    rcases h : c.close_instance_public_ports p.from_port p.to_port p.protocol p.name with
      resp | e <;>
    simp [fw_core, close_port, exit_json, hst, hr, h]
  refine ⟨hlog, ?_⟩
  intro fp tp pr nm
  rw [hlog]
  simp

/-- C5 witness: closing `tcp` 80 to 80 on instance `i1`. -/
theorem C5_witness :
    (fw_core (fwParams "absent") emptyStoreClient).2 =
      [ApiCall.closeInstancePublicPorts 80 80 "tcp" "i1"] ∧
    ApiCall.openInstancePublicPorts 80 80 "tcp" "i1" ∉
      (fw_core (fwParams "absent") emptyStoreClient).2 := by
  have h := C5_close_port_absent (fwParams "absent") emptyStoreClient rfl rfl
  exact ⟨h.1, h.2 80 80 "tcp" "i1"⟩

/-- C6: for either firewall action, a successful remote call always yields
`changed = true` (the log shows the single port call and no prior
state-reading call, so no idempotence check is made and an already-open or
already-closed port still reports changed), while a `ClientError` makes
the whole invocation fail with a message ending in the original error
text. -/
theorem C6_no_idempotence_and_error_surfacing (p : FWParams) (c : Client)
    (hr : regionMissing p.region = false) :
    (p.state = "present" →
      fw_core p c =
        match c.open_instance_public_ports p.from_port p.to_port p.protocol p.name with
        | .ok resp =>
            (.ok (true, camel_dict_to_snake_dict resp),
             [ApiCall.openInstancePublicPorts p.from_port p.to_port p.protocol p.name])
        | .error e =>
            (.error (.failJson ("Error opening ports for instance " ++ p.name ++
               ", error: " ++ e)),
             [ApiCall.openInstancePublicPorts p.from_port p.to_port p.protocol p.name])) ∧
    (p.state = "absent" →
      fw_core p c =
        match c.close_instance_public_ports p.from_port p.to_port p.protocol p.name with
        | .ok resp =>
            (.ok (true, camel_dict_to_snake_dict resp),
             [ApiCall.closeInstancePublicPorts p.from_port p.to_port p.protocol p.name])
        | .error e =>
            (.error (.failJson ("Error closing ports for instance " ++ p.name ++
               ", error: " ++ e)),
             [ApiCall.closeInstancePublicPorts p.from_port p.to_port p.protocol p.name])) := by
  constructor
  · intro hst
    rcases h : c.open_instance_public_ports p.from_port p.to_port p.protocol p.name with
      resp | e <;>
    simp [fw_core, open_port, exit_json, hst, hr, h]
  · intro hst
    rcases h : c.close_instance_public_ports p.from_port p.to_port p.protocol p.name with
      resp | e <;>
    simp [fw_core, close_port, exit_json, hst, hr, h]

/-- C6 witness: an erroring client makes the open invocation fail with the
error text `boom` surfaced at the end of the message. -/
theorem C6_witness :
    fw_core (fwParams "present") boomClient =
      (.error (.failJson "Error opening ports for instance i1, error: boom"),
       [ApiCall.openInstancePublicPorts 80 80 "tcp" "i1"]) := by
  have h := (C6_no_idempotence_and_error_surfacing (fwParams "present") boomClient rfl).1 rfl
  simpa using h

/-- Inversion helper: whatever the parameters, state and client, every
successful exit of the key-pair module carries the snake_case translation
of some raw response document (every success path funnels through the one
`exit_json` line). -/
theorem kp_core_ok_snake (p : KPParams) (c : Client) (ch : Bool) (d : RespDict)
    (log : List ApiCall) (h : kp_core p c = (.ok (ch, d), log)) :
    ∃ raw, d = camel_dict_to_snake_dict raw := by
  unfold kp_core at h
  split at h
  · simp at h
  · split at h
    · split at h <;> simp [exit_json] at h
      · exact ⟨_, h.1.2.symm⟩
    · split at h
      · simp [exit_json] at h
      · split at h
        · simp [exit_json] at h
        · split at h
          · split at h <;> simp [exit_json] at h
            · exact ⟨_, h.1.2.symm⟩
          · simp [exit_json] at h

/-- Inversion helper: whatever the parameters, state and client, every
successful exit of the firewall module carries the snake_case translation
of some raw response document. -/
theorem fw_core_ok_snake (p : FWParams) (c : Client) (ch : Bool) (d : RespDict)
    (log : List ApiCall) (h : fw_core p c = (.ok (ch, d), log)) :
    ∃ raw, d = camel_dict_to_snake_dict raw := by
  unfold fw_core at h
  split at h
  · simp at h
  · split at h
    · split at h <;> simp [exit_json] at h
      · exact ⟨_, h.1.2.symm⟩
    · split at h
      · split at h <;> simp [exit_json] at h
        · exact ⟨_, h.1.2.symm⟩
      · simp at h

/-- C7: every successful invocation of either module exits with the
response document translated key-by-key from camelCase to snake_case: each
of the four success paths (delete and import for the key-pair module, open
and close for the firewall module) returns the snake_case translation of
the client's actual response, every other successful exit is likewise the
translation of some raw document, and in particular the response holding
`keyPairName = k1` and `fingerprint = ab:cd` is returned with
`key_pair_name = k1` and `fingerprint = ab:cd`. -/
theorem C7_snake_case_translation (p : KPParams) (q : FWParams) (c : Client) :
    (∀ resp, p.state = "absent" → regionMissing p.region = false →
      c.create_key_pair p.key_pair_name = .ok resp →
      (kp_core p c).1 = .ok (true, camel_dict_to_snake_dict resp.operation)) ∧
    (∀ resp, p.state = "present" → regionMissing p.region = false →
      c.get_key_pair p.key_pair_name = .ok none →
      c.import_key_pair p.key_pair_name p.public_key_base64 = .ok resp →
      (kp_core p c).1 = .ok (true, camel_dict_to_snake_dict resp)) ∧
    (∀ resp, q.state = "present" → regionMissing q.region = false →
      c.open_instance_public_ports q.from_port q.to_port q.protocol q.name = .ok resp →
      (fw_core q c).1 = .ok (true, camel_dict_to_snake_dict resp)) ∧
    (∀ resp, q.state = "absent" → regionMissing q.region = false →
      c.close_instance_public_ports q.from_port q.to_port q.protocol q.name = .ok resp →
      (fw_core q c).1 = .ok (true, camel_dict_to_snake_dict resp)) ∧
    (∀ ch d log, kp_core p c = (.ok (ch, d), log) →
      ∃ raw, d = camel_dict_to_snake_dict raw) ∧
    (∀ ch d log, fw_core q c = (.ok (ch, d), log) →
      ∃ raw, d = camel_dict_to_snake_dict raw) ∧
    camel_dict_to_snake_dict [("keyPairName", "k1"), ("fingerprint", "ab:cd")] =
      [("key_pair_name", "k1"), ("fingerprint", "ab:cd")] := by
  refine ⟨?_, ?_, ?_, ?_, kp_core_ok_snake p c, fw_core_ok_snake q c, rfl⟩
  · intro resp hst hr hcr
    simp [kp_core, delete_key_pair, exit_json, hst, hr, hcr]
  · intro resp hst hr hg hi
    simp [kp_core, import_keypair, get_keypair, exit_json, hst, hr, hg, hi]
  · intro resp hst hr ho
    simp [fw_core, open_port, exit_json, hst, hr, ho]
  · intro resp hst hr hc
    simp [fw_core, close_port, exit_json, hst, hr, hc]

/-- C7 witness: the two `state = absent` success paths (delete key pair,
close port) against the mock store, and the concrete translation of the
example response; the `state = present` paths are exercised concretely by
the C3 and C4 witnesses. -/
theorem C7_witness :
    (kp_core (kpParams "absent") emptyStoreClient).1 =
      .ok (true, [("operation_id", "op0")]) ∧
    (fw_core (fwParams "absent") emptyStoreClient).1 =
      .ok (true, [("operation_id", "op2")]) ∧
    camel_dict_to_snake_dict [("keyPairName", "k1"), ("fingerprint", "ab:cd")] =
      [("key_pair_name", "k1"), ("fingerprint", "ab:cd")] := by
  have h := C7_snake_case_translation (kpParams "absent") (fwParams "absent") emptyStoreClient
  refine ⟨?_, ?_, h.2.2.2.2.2.2⟩
  · simpa using h.1 ⟨[("operationId", "op0")]⟩ rfl rfl rfl
  · simpa using h.2.2.2.1 [("operationId", "op2")] rfl rfl rfl

/-- C8: with no region specified (or an empty region, which Python's
`if not region` also treats as missing), both modules fail immediately
with the message `region must be specified`; the empty call log and the
quantification over every client show that no remote call is attempted
and the outcome does not depend on the client at all. -/
theorem C8_region_must_be_specified (p : KPParams) (q : FWParams) (c : Client)
    (hp : regionMissing p.region = true) (hq : regionMissing q.region = true) :
    kp_core p c = (.error (.failJson "region must be specified"), []) ∧
    fw_core q c = (.error (.failJson "region must be specified"), []) := by
  constructor <;> simp [kp_core, fw_core, hp, hq]

/-- C8 witness: both modules with `region = none`, against the erroring
client (whose endpoints are never consulted). -/
theorem C8_witness :
    kp_core { kpParams "present" with region := none } boomClient =
      (.error (.failJson "region must be specified"), []) ∧
    fw_core { fwParams "present" with region := none } boomClient =
      (.error (.failJson "region must be specified"), []) :=
  C8_region_must_be_specified { kpParams "present" with region := none }
    { fwParams "present" with region := none } boomClient rfl rfl

/-- C9: the states `running`, `stopped` and `restarted` are among the
parser's `choices` for the key-pair module (so `kp_main` dispatches to
`core` instead of rejecting), and `core` issues no API call at all: the
log is empty, `changed` is still `false` at the exit line, and the exit
then trips over the placeholder `None` response (`Halt.pyError`), so no
invocation with these states ever reports `changed = true` or mutates the
remote store. -/
theorem C9_stub_states_no_call (p : KPParams) (c : Client)
    (hs : p.state = "running" ∨ p.state = "stopped" ∨ p.state = "restarted")
    (hr : regionMissing p.region = false) :
    p.state ∈ kp_choices ∧
    kp_main p c = kp_core p c ∧
    kp_core p c = (exit_json false none, []) ∧
    exit_json false none = .error Halt.pyError := by
  have hmem : p.state ∈ kp_choices := by
    rcases hs with h | h | h <;> simp [kp_choices, h]
  refine ⟨hmem, by simp [kp_main, hmem], ?_, rfl⟩
  rcases hs with h | h | h <;> simp [kp_core, h, hr]

/-- C9 witness: `state = running`. -/
theorem C9_witness :
    ("running" : String) ∈ kp_choices ∧
    kp_main (kpParams "running") boomClient = kp_core (kpParams "running") boomClient ∧
    kp_core (kpParams "running") boomClient = (exit_json false none, []) ∧
    exit_json false none = .error Halt.pyError :=
  C9_stub_states_no_call (kpParams "running") boomClient (Or.inl rfl) rfl

/-- C10: with `state = present`, when the lookup yields a key pair whose
`name` differs from the requested one, `import_keypair` takes neither the
fail branch nor the import branch and returns Python `None` after only the
lookup call; `core` then crashes unpacking the missing pair
(`Halt.pyError`), reporting neither a success exit nor a `fail_json`. -/
theorem C10_mismatched_name_returns_none (p : KPParams) (c : Client)
    (kp : RespDict) (n : String)
    (hst : p.state = "present") (hr : regionMissing p.region = false)
    (hg : c.get_key_pair p.key_pair_name = .ok (some kp))
    (hn : kp.lookup "name" = some n) (hne : n ≠ p.key_pair_name) :
    import_keypair p c = (.ok none, [ApiCall.getKeyPair p.key_pair_name]) ∧
    kp_core p c = (.error Halt.pyError, [ApiCall.getKeyPair p.key_pair_name]) := by
  have himp : import_keypair p c = (.ok none, [ApiCall.getKeyPair p.key_pair_name]) := by
    simp [import_keypair, get_keypair, hg, hn, hne]
  exact ⟨himp, by simp [kp_core, hst, hr, himp]⟩

/-- C10 witness: requesting `k1` while the lookup answers with a key pair
named `other`. -/
theorem C10_witness :
    import_keypair (kpParams "present") storeOtherClient =
      (.ok none, [ApiCall.getKeyPair "k1"]) ∧
    kp_core (kpParams "present") storeOtherClient =
      (.error Halt.pyError, [ApiCall.getKeyPair "k1"]) :=
  C10_mismatched_name_returns_none (kpParams "present") storeOtherClient
    [("name", "other")] "other" rfl rfl rfl rfl (by decide)
